import Mathlib

/-!
Shallow embedding of `src/exam.py` (an order-processing service).

The Python service routes each order through type-specific handling,
computes a priority, and persists the resulting status.  Collaborators
(the database service, the remote API client, and the CSV report sink)
are modelled as an environment of functions returning `Except Exc _`
values; a Python exception that a handler catches is translated into a
status value, and an exception no handler catches is threaded through
as a `some`-exception component of each step's result.  Every step also
returns the list of collaborator invocations it performed, so that
frame properties (which collaborators were or were not called) can be
stated.
-/

namespace Exam

namespace OrderStatus

def NEW : String := "new"

def PENDING : String := "pending"

def PROCESSED : String := "processed"

def IN_PROGRESS : String := "in_progress"

def COMPLETED : String := "completed"

def UNKNOWN_TYPE : String := "unknown_type"

def ERROR : String := "error"

def EXPORTED : String := "exported"

def EXPORT_FAILED : String := "export_failed"

def API_ERROR : String := "api_error"

def API_FAILURE : String := "api_failure"

def DB_ERROR : String := "db_error"

end OrderStatus

namespace OrderPriority

def HIGH : String := "high"

def LOW : String := "low"

end OrderPriority

namespace APIStatus

def SUCCESS : String := "success"

def ERROR : String := "error"

end APIStatus

/-- The `Order` entity of `exam.py`: mutable `status`/`priority`,
`amount` modelled as a rational number (the Python code only compares
amounts against integer thresholds). -/
structure Order where
  id : Int
  type : String
  amount : Rat
  flag : Bool
  status : String
  priority : String
deriving Repr, DecidableEq

/-- `Order.__init__`: a freshly constructed order has status `new` and
priority `low`. -/
def Order.init (id : Int) (type : String) (amount : Rat) (flag : Bool) : Order :=
  { id := id, type := type, amount := amount, flag := flag,
    status := OrderStatus.NEW, priority := OrderPriority.LOW }

/-- `APIResponse`: status tag plus numeric payload (`data`). -/
structure APIResponse where
  status : String
  data : Rat
deriving Repr, DecidableEq

/-- The exception kinds a collaborator call can raise.  `ioError`,
`apiException` and `databaseException` are the three declared kinds of
`exam.py` (`IOError`, `APIException`, `DatabaseException`); `other n`
stands for any exception of a different class. -/
inductive Exc where
  | ioError : Exc
  | apiException : Exc
  | databaseException : Exc
  | other : Nat → Exc
deriving Repr, DecidableEq

/-- A collaborator invocation, recorded in the trace of a run. -/
inductive Event where
  | fetch : Int → Event
  | fileWrite : String → List (List String) → Event
  | fileAppend : String → List (List String) → Event
  | apiCall : Int → Event
  | dbUpdate : Int → String → String → Event
deriving Repr, DecidableEq

/-- The environment: behaviour of the collaborators (`DatabaseService`,
`APIClient`, the file system) and the clock value used in the CSV file
name. -/
structure Env where
  now : Nat
  get_orders_by_user : Int → Except Exc (List Order)
  update_order_status : Int → String → String → Except Exc Bool
  call_api : Int → Except Exc APIResponse
  write_file : String → List (List String) → Except Exc Unit
  append_file : String → List (List String) → Except Exc Unit

/-- The data row `csv.writer.writerow` receives for an order in
`_process_type_a_order`: id, type, amount, `str(flag).lower()`,
current status, current priority. -/
def csvRow (o : Order) : List String :=
  [toString o.id, o.type, toString o.amount, (toString o.flag).toLower,
   o.status, o.priority]

/-- The annotation row written for high-value type-A orders. -/
def noteRow : List String :=
  ["", "", "", "", "Note", "High value order"]

/-- The rows one type-A append writes: the data row, plus the note row
when `amount > 150`. -/
def typeARows (o : Order) : List (List String) :=
  if o.amount > 150 then [csvRow o, noteRow] else [csvRow o]

/-- The header row written by `_create_csv_file`. -/
def headerRow : List String :=
  ["ID", "Type", "Amount", "Flag", "Status", "Priority"]

/-- The CSV file name `_create_csv_file` builds from the user id and
the current time. -/
def csvFileName (user_id : Int) (now : Nat) : String :=
  "orders_type_A_" ++ toString user_id ++ "_" ++ toString now ++ ".csv"

/-- `_create_csv_file`: build the name, write the header row.  Any
exception from the write propagates (the caller's boundary catches it). -/
def create_csv_file (env : Env) (user_id : Int) :
    Except Exc String × List Event :=
  match env.write_file (csvFileName user_id env.now) [headerRow] with
  | Except.ok _ =>
      (Except.ok (csvFileName user_id env.now),
       [Event.fileWrite (csvFileName user_id env.now) [headerRow]])
  | Except.error e =>
      (Except.error e,
       [Event.fileWrite (csvFileName user_id env.now) [headerRow]])

/-- `_process_type_a_order`: append the rows; on success set status
`exported`; an `IOError` is caught and yields `export_failed`; any
other exception propagates with the order unchanged. -/
def process_type_a_order (env : Env) (csv_file : String) (order : Order) :
    Order × List Event × Option Exc :=
  match env.append_file csv_file (typeARows order) with
  | Except.ok _ =>
      ({ order with status := OrderStatus.EXPORTED },
       [Event.fileAppend csv_file (typeARows order)], none)
  | Except.error Exc.ioError =>
      ({ order with status := OrderStatus.EXPORT_FAILED },
       [Event.fileAppend csv_file (typeARows order)], none)
  | Except.error e =>
      (order, [Event.fileAppend csv_file (typeARows order)], some e)

/-- `_process_type_b_order`: call the API; an `APIException` is caught
and yields `api_failure`; any other exception propagates; otherwise
the status is decided by the response branch chain. -/
def process_type_b_order (env : Env) (order : Order) :
    Order × List Event × Option Exc :=
  match env.call_api order.id with
  | Except.ok resp =>
      let st :=
        if resp.status = APIStatus.SUCCESS then
          if resp.data ≥ 50 ∧ order.amount < 100 then OrderStatus.PROCESSED
          else if resp.data < 50 ∨ order.flag = true then OrderStatus.PENDING
          else OrderStatus.ERROR
        else OrderStatus.API_ERROR
      ({ order with status := st }, [Event.apiCall order.id], none)
  | Except.error Exc.apiException =>
      ({ order with status := OrderStatus.API_FAILURE },
       [Event.apiCall order.id], none)
  | Except.error e =>
      (order, [Event.apiCall order.id], some e)

/-- `_process_type_c_order`: pure flag-based status. -/
def process_type_c_order (order : Order) : Order :=
  if order.flag then { order with status := OrderStatus.COMPLETED }
  else { order with status := OrderStatus.IN_PROGRESS }

/-- `_process_order_by_type`: dispatch on the type tag. -/
def process_order_by_type (env : Env) (csv_file : String) (order : Order) :
    Order × List Event × Option Exc :=
  if order.type = "A" then process_type_a_order env csv_file order
  else if order.type = "B" then process_type_b_order env order
  else if order.type = "C" then (process_type_c_order order, [], none)
  else ({ order with status := OrderStatus.UNKNOWN_TYPE }, [], none)

/-- `_update_order_priority`: priority from the amount alone. -/
def update_order_priority (order : Order) : Order :=
  if order.amount > 200 then { order with priority := OrderPriority.HIGH }
  else { order with priority := OrderPriority.LOW }

/-- `_save_order_status`: persist; a `DatabaseException` is caught and
overwrites the status with `db_error`; any other exception propagates. -/
def save_order_status (env : Env) (order : Order) :
    Order × List Event × Option Exc :=
  match env.update_order_status order.id order.status order.priority with
  | Except.ok _ =>
      (order, [Event.dbUpdate order.id order.status order.priority], none)
  | Except.error Exc.databaseException =>
      ({ order with status := OrderStatus.DB_ERROR },
       [Event.dbUpdate order.id order.status order.priority], none)
  | Except.error e =>
      (order, [Event.dbUpdate order.id order.status order.priority], some e)

/-- `_process_single_order`: type dispatch, then priority, then save;
an uncontained exception in an earlier step skips the later steps. -/
def process_single_order (env : Env) (csv_file : String) (order : Order) :
    Order × List Event × Option Exc :=
  match process_order_by_type env csv_file order with
  | (o1, evs1, some e) => (o1, evs1, some e)
  | (o1, evs1, none) =>
      match save_order_status env (update_order_priority o1) with
      | (o3, evs3, exc) => (o3, evs1 ++ evs3, exc)

/-- The `for order in orders` loop of `process_orders`: stops at the
first uncontained exception. -/
def process_order_loop (env : Env) (csv_file : String) :
    List Order → List Order × List Event × Option Exc
  | [] => ([], [], none)
  | o :: rest =>
      match process_single_order env csv_file o with
      | (o1, evs1, some e) => ([o1], evs1, some e)
      | (o1, evs1, none) =>
          match process_order_loop env csv_file rest with
          | (os, evs2, exc) => (o1 :: os, evs1 ++ evs2, exc)

/-- `process_orders`: fetch, early-exit on empty, create the CSV file,
process every order, and translate any escaped exception into `false`
at the outermost boundary. -/
def process_orders (env : Env) (user_id : Int) : Bool × List Event :=
  match env.get_orders_by_user user_id with
  | Except.error _ => (false, [Event.fetch user_id])
  | Except.ok orders =>
      if orders.isEmpty then (false, [Event.fetch user_id])
      else
        match create_csv_file env user_id with
        | (Except.error _, evc) => (false, Event.fetch user_id :: evc)
        | (Except.ok csv_file, evc) =>
            match process_order_loop env csv_file orders with
            | (_, evsL, some _) => (false, Event.fetch user_id :: evc ++ evsL)
            | (_, evsL, none) => (true, Event.fetch user_id :: evc ++ evsL)

/-- An environment in which every per-order collaborator call either
succeeds or fails with exactly its declared contained exception kind. -/
def ContainedEnv (env : Env) : Prop :=
  (∀ f rows, env.append_file f rows = Except.ok ()
      ∨ env.append_file f rows = Except.error Exc.ioError)
  ∧ (∀ i, (∃ r, env.call_api i = Except.ok r)
      ∨ env.call_api i = Except.error Exc.apiException)
  ∧ (∀ i s p, (∃ b, env.update_order_status i s p = Except.ok b)
      ∨ env.update_order_status i s p = Except.error Exc.databaseException)

/-! ### Reduction lemmas

Each lemma evaluates one step of the pipeline under a hypothesis fixing
the behaviour of the collaborator call that step makes. -/

theorem typeA_ok_eq (env : Env) (f : String) (o : Order)
    (h : env.append_file f (typeARows o) = Except.ok ()) :
    process_type_a_order env f o
      = ({ o with status := OrderStatus.EXPORTED },
         [Event.fileAppend f (typeARows o)], none) := by
  unfold process_type_a_order
  rw [h]

theorem typeA_ioerr_eq (env : Env) (f : String) (o : Order)
    (h : env.append_file f (typeARows o) = Except.error Exc.ioError) :
    process_type_a_order env f o
      = ({ o with status := OrderStatus.EXPORT_FAILED },
         [Event.fileAppend f (typeARows o)], none) := by
  unfold process_type_a_order
  rw [h]

theorem typeA_other_eq (env : Env) (f : String) (o : Order) (n : Nat)
    (h : env.append_file f (typeARows o) = Except.error (Exc.other n)) :
    process_type_a_order env f o
      = (o, [Event.fileAppend f (typeARows o)], some (Exc.other n)) := by
  unfold process_type_a_order
  rw [h]

theorem typeB_ok_eq (env : Env) (o : Order) (resp : APIResponse)
    (h : env.call_api o.id = Except.ok resp) :
    process_type_b_order env o
      = ({ o with status :=
            if resp.status = APIStatus.SUCCESS then
              if resp.data ≥ 50 ∧ o.amount < 100 then OrderStatus.PROCESSED
              else if resp.data < 50 ∨ o.flag = true then OrderStatus.PENDING
              else OrderStatus.ERROR
            else OrderStatus.API_ERROR },
         [Event.apiCall o.id], none) := by
  unfold process_type_b_order
  rw [h]

theorem typeB_apiexc_eq (env : Env) (o : Order)
    (h : env.call_api o.id = Except.error Exc.apiException) :
    process_type_b_order env o
      = ({ o with status := OrderStatus.API_FAILURE },
         [Event.apiCall o.id], none) := by
  unfold process_type_b_order
  rw [h]

theorem typeB_other_eq (env : Env) (o : Order) (n : Nat)
    (h : env.call_api o.id = Except.error (Exc.other n)) :
    process_type_b_order env o
      = (o, [Event.apiCall o.id], some (Exc.other n)) := by
  unfold process_type_b_order
  rw [h]

theorem save_ok_eq (env : Env) (o : Order) (b : Bool)
    (h : env.update_order_status o.id o.status o.priority = Except.ok b) :
    save_order_status env o
      = (o, [Event.dbUpdate o.id o.status o.priority], none) := by
  unfold save_order_status
  rw [h]

theorem save_dbexc_eq (env : Env) (o : Order)
    (h : env.update_order_status o.id o.status o.priority
        = Except.error Exc.databaseException) :
    save_order_status env o
      = ({ o with status := OrderStatus.DB_ERROR },
         [Event.dbUpdate o.id o.status o.priority], none) := by
  unfold save_order_status
  rw [h]

theorem save_other_eq (env : Env) (o : Order) (n : Nat)
    (h : env.update_order_status o.id o.status o.priority
        = Except.error (Exc.other n)) :
    save_order_status env o
      = (o, [Event.dbUpdate o.id o.status o.priority], some (Exc.other n)) := by
  unfold save_order_status
  rw [h]

theorem single_ok_eq (env : Env) (f : String) (o o1 : Order) (evs1 : List Event)
    (h : process_order_by_type env f o = (o1, evs1, none)) :
    process_single_order env f o
      = ((save_order_status env (update_order_priority o1)).1,
         evs1 ++ (save_order_status env (update_order_priority o1)).2.1,
         (save_order_status env (update_order_priority o1)).2.2) := by
  unfold process_single_order
  rw [h]

theorem single_exc_eq (env : Env) (f : String) (o o1 : Order)
    (evs1 : List Event) (e : Exc)
    (h : process_order_by_type env f o = (o1, evs1, some e)) :
    process_single_order env f o = (o1, evs1, some e) := by
  unfold process_single_order
  rw [h]

theorem loop_cons_ok_eq (env : Env) (f : String) (o o1 : Order)
    (evs1 : List Event) (rest : List Order)
    (h : process_single_order env f o = (o1, evs1, none)) :
    process_order_loop env f (o :: rest)
      = (o1 :: (process_order_loop env f rest).1,
         evs1 ++ (process_order_loop env f rest).2.1,
         (process_order_loop env f rest).2.2) := by
  rcases hr : process_order_loop env f rest with ⟨os2, evs2, exc2⟩
  rw [process_order_loop, h, hr]

theorem loop_cons_exc_eq (env : Env) (f : String) (o o1 : Order)
    (evs1 : List Event) (e : Exc) (rest : List Order)
    (h : process_single_order env f o = (o1, evs1, some e)) :
    process_order_loop env f (o :: rest) = ([o1], evs1, some e) := by
  unfold process_order_loop
  rw [h]

theorem create_csv_file_ok_eq (env : Env) (uid : Int)
    (h : env.write_file (csvFileName uid env.now) [headerRow] = Except.ok ()) :
    create_csv_file env uid
      = (Except.ok (csvFileName uid env.now),
         [Event.fileWrite (csvFileName uid env.now) [headerRow]]) := by
  unfold create_csv_file
  rw [h]

theorem process_orders_run_eq (env : Env) (uid : Int) (orders : List Order)
    (f : String) (evc : List Event) (os1 : List Order)
    (evs1 : List Event) (exc1 : Option Exc)
    (hne : orders ≠ [])
    (hfetch : env.get_orders_by_user uid = Except.ok orders)
    (hcsv : create_csv_file env uid = (Except.ok f, evc))
    (hloop : process_order_loop env f orders = (os1, evs1, exc1)) :
    process_orders env uid
      = (exc1.isNone, Event.fetch uid :: evc ++ evs1) := by
  rcases orders with _ | ⟨o, os⟩
  · exact absurd rfl hne
  unfold process_orders
  rw [hfetch]
  simp only [List.isEmpty_cons, Bool.false_eq_true, if_false]
  simp only [hcsv]
  rw [hloop]
  cases exc1 <;> rfl

theorem create_csv_file_err_eq (env : Env) (uid : Int) (e : Exc)
    (h : env.write_file (csvFileName uid env.now) [headerRow]
        = Except.error e) :
    create_csv_file env uid
      = (Except.error e,
         [Event.fileWrite (csvFileName uid env.now) [headerRow]]) := by
  unfold create_csv_file
  rw [h]

theorem process_orders_csv_err_eq (env : Env) (uid : Int)
    (orders : List Order) (e : Exc) (evc : List Event)
    (hne : orders ≠ [])
    (hfetch : env.get_orders_by_user uid = Except.ok orders)
    (hcsv : create_csv_file env uid = (Except.error e, evc)) :
    process_orders env uid = (false, Event.fetch uid :: evc) := by
  rcases orders with _ | ⟨o, os⟩
  · exact absurd rfl hne
  unfold process_orders
  rw [hfetch]
  simp only [List.isEmpty_cons, Bool.false_eq_true, if_false]
  simp only [hcsv]

/-- The collaborator invocations the loop records for a list of orders
it processes completely. -/
def batchEvents (env : Env) (f : String) : List Order → List Event
  | [] => []
  | p :: ps => (process_single_order env f p).2.1 ++ batchEvents env f ps

theorem loop_prefix_exc_eq (env : Env) (f : String) (o o1 : Order)
    (evs1 : List Event) (e : Exc)
    (h : process_single_order env f o = (o1, evs1, some e)) :
    ∀ (pre rest : List Order),
      (∀ p ∈ pre, (process_single_order env f p).2.2 = none) →
      process_order_loop env f (pre ++ o :: rest)
        = ((pre.map fun p => (process_single_order env f p).1) ++ [o1],
           batchEvents env f pre ++ evs1,
           some e) := by
  intro pre
  induction pre with
  | nil =>
      intro rest hpre
      rw [List.nil_append, loop_cons_exc_eq env f o o1 evs1 e rest h]
      rfl
  | cons p ps ih =>
      intro rest hpre
      have hp : (process_single_order env f p).2.2 = none :=
        hpre p (List.mem_cons_self p ps)
      have heqp : process_single_order env f p
          = ((process_single_order env f p).1,
             (process_single_order env f p).2.1, none) := by
        rw [← hp]
      rw [List.cons_append, loop_cons_ok_eq env f p _ _ (ps ++ o :: rest) heqp,
        ih rest (fun q hq => hpre q (List.mem_cons_of_mem p hq))]
      simp [batchEvents, List.append_assoc]

theorem save_events_eq (env : Env) (p : Order) :
    (save_order_status env p).2.1
      = [Event.dbUpdate p.id p.status p.priority] := by
  unfold save_order_status
  cases hu : env.update_order_status p.id p.status p.priority with
  | ok b => rfl
  | error e => cases e <;> rfl

theorem update_priority_id_eq (p : Order) :
    (update_order_priority p).id = p.id := by
  unfold update_order_priority
  by_cases h : p.amount > 200 <;> simp [h]

theorem update_priority_status_eq (p : Order) :
    (update_order_priority p).status = p.status := by
  unfold update_order_priority
  by_cases h : p.amount > 200 <;> simp [h]

/-! ### Concrete environments used by witnesses -/

/-- An environment in which every collaborator call succeeds; the API
always answers `success` with payload 60, and the fetch returns one
type-B order. -/
def envOk : Env :=
  { now := 7,
    get_orders_by_user := fun _ => Except.ok [Order.init 2 "B" 80 false],
    update_order_status := fun _ _ _ => Except.ok true,
    call_api := fun _ => Except.ok { status := APIStatus.SUCCESS, data := 60 },
    write_file := fun _ _ => Except.ok (),
    append_file := fun _ _ => Except.ok () }

/-- A file name used by witnesses. -/
def fileW : String := "orders.csv"

/-! ### Claims -/

/-- Claim C1: for every type "B" order whose API call returns a
`success` response, the pre-persistence status follows the ordered
branch chain: payload ≥ 50 and amount < 100 gives `processed`; else
payload < 50 or flag gives `pending`; else `error`.  In particular
payload ≥ 50, amount ≥ 100, flag true gives `pending`, and payload ≥
50, amount ≥ 100, flag false gives `error`. -/
theorem c1_typeB_success_branch_chain (env : Env) (order : Order)
    (resp : APIResponse)
    (hcall : env.call_api order.id = Except.ok resp)
    (hsucc : resp.status = APIStatus.SUCCESS) :
    ((resp.data ≥ 50 ∧ order.amount < 100) →
        (process_type_b_order env order).1.status = OrderStatus.PROCESSED)
    ∧ ((resp.data ≥ 50 ∧ 100 ≤ order.amount ∧ order.flag = true) →
        (process_type_b_order env order).1.status = OrderStatus.PENDING)
    ∧ (resp.data < 50 →
        (process_type_b_order env order).1.status = OrderStatus.PENDING)
    ∧ ((resp.data ≥ 50 ∧ 100 ≤ order.amount ∧ order.flag = false) →
        (process_type_b_order env order).1.status = OrderStatus.ERROR) := by
  rw [typeB_ok_eq env order resp hcall]
  refine ⟨fun h => ?_, fun h => ?_, fun h => ?_, fun h => ?_⟩
  · simp [hsucc, h.1, h.2]
  · simp [hsucc, not_lt.mpr h.2.1, h.2.2]
  · simp [hsucc, not_le.mpr h, h]
  · simp [hsucc, not_lt.mpr h.2.1, not_lt.mpr h.1, h.2.2]

/-- Witness for C1: payload 60, amount 80 gives `processed`. -/
theorem c1_witness :
    (process_type_b_order envOk (Order.init 2 "B" 80 false)).1.status
      = OrderStatus.PROCESSED :=
  (c1_typeB_success_branch_chain envOk (Order.init 2 "B" 80 false)
      { status := APIStatus.SUCCESS, data := 60 } rfl rfl).1
    ⟨by decide, by decide⟩

/-- Claim C3: for every type "A" order the status becomes `exported`
when the sink append succeeds and `export_failed` when the sink write
fails with an I/O error (contained either way), and the annotation row
with literals "Note" and "High value order" is appended after the data
row exactly when the amount exceeds 150. -/
theorem c3_typeA_export_and_note_row (env : Env) (f : String) (o : Order) :
    (env.append_file f (typeARows o) = Except.ok () →
        (process_type_a_order env f o).1.status = OrderStatus.EXPORTED
        ∧ (process_type_a_order env f o).2.2 = none)
    ∧ (env.append_file f (typeARows o) = Except.error Exc.ioError →
        (process_type_a_order env f o).1.status = OrderStatus.EXPORT_FAILED
        ∧ (process_type_a_order env f o).2.2 = none)
    ∧ (o.amount > 150 → typeARows o = [csvRow o, noteRow])
    ∧ (¬ o.amount > 150 → typeARows o = [csvRow o])
    ∧ noteRow = ["", "", "", "", "Note", "High value order"] := by
  refine ⟨fun h => ?_, fun h => ?_, fun h => ?_, fun h => ?_, rfl⟩
  · rw [typeA_ok_eq env f o h]
    exact ⟨rfl, rfl⟩
  · rw [typeA_ioerr_eq env f o h]
    exact ⟨rfl, rfl⟩
  · unfold typeARows
    rw [if_pos h]
  · unfold typeARows
    rw [if_neg h]

/-- Witness for C3: an order of amount 160 is exported with the note
row, and an order of amount exactly 150 writes only the data row. -/
theorem c3_witness :
    ((process_type_a_order envOk fileW (Order.init 1 "A" 160 false)).1.status
        = OrderStatus.EXPORTED)
    ∧ typeARows (Order.init 1 "A" 160 false)
        = [csvRow (Order.init 1 "A" 160 false), noteRow]
    ∧ typeARows (Order.init 4 "A" 150 false)
        = [csvRow (Order.init 4 "A" 150 false)] :=
  ⟨((c3_typeA_export_and_note_row envOk fileW (Order.init 1 "A" 160 false)).1
      rfl).1,
   (c3_typeA_export_and_note_row envOk fileW
      (Order.init 1 "A" 160 false)).2.2.1 (by decide),
   (c3_typeA_export_and_note_row envOk fileW
      (Order.init 4 "A" 150 false)).2.2.2.1 (by decide)⟩

/-- Claim C5: for every type "B" order, a thrown `APIException` from
the client is contained and sets status `api_failure`, and a returned
response whose status is not `success` sets status `api_error`. -/
theorem c5_typeB_failure_statuses (env : Env) (o : Order) :
    (env.call_api o.id = Except.error Exc.apiException →
        (process_type_b_order env o).1.status = OrderStatus.API_FAILURE
        ∧ (process_type_b_order env o).2.2 = none)
    ∧ (∀ resp, env.call_api o.id = Except.ok resp →
        resp.status ≠ APIStatus.SUCCESS →
        (process_type_b_order env o).1.status = OrderStatus.API_ERROR) := by
  constructor
  · intro h
    rw [typeB_apiexc_eq env o h]
    exact ⟨rfl, rfl⟩
  · intro resp h hne
    rw [typeB_ok_eq env o resp h]
    simp [hne]

/-- An environment whose API call always throws `APIException`. -/
def envApiExc : Env :=
  { envOk with call_api := fun _ => Except.error Exc.apiException }

/-- Witness for C5: a thrown `APIException` yields `api_failure`. -/
theorem c5_witness :
    (process_type_b_order envApiExc (Order.init 2 "B" 80 false)).1.status
      = OrderStatus.API_FAILURE :=
  ((c5_typeB_failure_statuses envApiExc (Order.init 2 "B" 80 false)).1 rfl).1

/-- Claim C7: `_update_order_priority` sets priority to `high` exactly
when the amount exceeds 200 and to `low` otherwise (200 itself gives
`low`); it changes no other field, has no failure path, and its result
depends on nothing but the amount. -/
theorem c7_update_priority_amount_only (o o2 : Order)
    (hamount : o.amount = o2.amount) :
    ((update_order_priority o).priority
        = if o.amount > 200 then OrderPriority.HIGH else OrderPriority.LOW)
    ∧ (o.amount > 200 →
        (update_order_priority o).priority = OrderPriority.HIGH)
    ∧ (o.amount ≤ 200 →
        (update_order_priority o).priority = OrderPriority.LOW)
    ∧ (update_order_priority o).id = o.id
    ∧ (update_order_priority o).type = o.type
    ∧ (update_order_priority o).amount = o.amount
    ∧ (update_order_priority o).flag = o.flag
    ∧ (update_order_priority o).status = o.status
    ∧ (update_order_priority o).priority
        = (update_order_priority o2).priority := by
  have hpr : ∀ p : Order, (update_order_priority p).priority
      = if p.amount > 200 then OrderPriority.HIGH else OrderPriority.LOW := by
    intro p
    unfold update_order_priority
    by_cases h : p.amount > 200 <;> simp [h]
  have hfields : ∀ p : Order, (update_order_priority p).id = p.id
      ∧ (update_order_priority p).type = p.type
      ∧ (update_order_priority p).amount = p.amount
      ∧ (update_order_priority p).flag = p.flag
      ∧ (update_order_priority p).status = p.status := by
    intro p
    unfold update_order_priority
    by_cases h : p.amount > 200 <;> simp [h]
  refine ⟨hpr o, fun h => ?_, fun h => ?_, (hfields o).1, (hfields o).2.1,
    (hfields o).2.2.1, (hfields o).2.2.2.1, (hfields o).2.2.2.2, ?_⟩
  · rw [hpr o, if_pos h]
  · rw [hpr o, if_neg (not_lt.mpr h)]
  · rw [hpr o, hpr o2, hamount]

/-- Witness for C7: amount 250 gives `high` for two orders that agree
only on the amount, and amount exactly 200 gives `low`. -/
theorem c7_witness :
    ((update_order_priority (Order.init 1 "A" 250 true)).priority
        = OrderPriority.HIGH)
    ∧ ((update_order_priority (Order.init 1 "A" 250 true)).priority
        = (update_order_priority (Order.init 9 "C" 250 false)).priority)
    ∧ ((update_order_priority (Order.init 3 "B" 200 true)).priority
        = OrderPriority.LOW) :=
  ⟨(c7_update_priority_amount_only (Order.init 1 "A" 250 true)
      (Order.init 9 "C" 250 false) rfl).2.1 (by decide),
   (c7_update_priority_amount_only (Order.init 1 "A" 250 true)
      (Order.init 9 "C" 250 false) rfl).2.2.2.2.2.2.2.2,
   (c7_update_priority_amount_only (Order.init 3 "B" 200 true)
      (Order.init 3 "B" 200 true) rfl).2.2.1 (by decide)⟩

/-- Claim C4: once the earlier steps of the per-order pipeline raise
no uncontained exception, the persistence save is the last step and
always runs (its update call is the final recorded invocation), and a
`DatabaseException` from the update overwrites whatever status the
prior steps produced with `db_error`, contained. -/
theorem c4_persist_last_and_db_error (env : Env) (f : String) (o : Order) :
    (∀ o1 evs1, process_order_by_type env f o = (o1, evs1, none) →
        process_single_order env f o
          = ((save_order_status env (update_order_priority o1)).1,
             evs1 ++ [Event.dbUpdate (update_order_priority o1).id
                        (update_order_priority o1).status
                        (update_order_priority o1).priority],
             (save_order_status env (update_order_priority o1)).2.2))
    ∧ (∀ p : Order, env.update_order_status p.id p.status p.priority
          = Except.error Exc.databaseException →
        (save_order_status env p).1.status = OrderStatus.DB_ERROR
        ∧ (save_order_status env p).2.2 = none) := by
  constructor
  · intro o1 evs1 h
    rw [single_ok_eq env f o o1 evs1 h, save_events_eq]
  · intro p hp
    rw [save_dbexc_eq env p hp]
    exact ⟨rfl, rfl⟩

/-- An environment whose persistence update always throws
`DatabaseException`. -/
def envDbExc : Env :=
  { envOk with update_order_status := fun _ _ _ =>
      Except.error Exc.databaseException }

/-- An order that already carries the failure status `export_failed`. -/
def orderFailedW : Order :=
  { Order.init 5 "A" 10 false with status := OrderStatus.EXPORT_FAILED }

/-- Witness for C4: a failed persistence update turns an
`export_failed` order into `db_error`, contained. -/
theorem c4_witness :
    (save_order_status envDbExc orderFailedW).1.status = OrderStatus.DB_ERROR
    ∧ (save_order_status envDbExc orderFailedW).2.2 = none :=
  (c4_persist_last_and_db_error envDbExc fileW orderFailedW).2 orderFailedW rfl

/-- Claim C6: an empty fetched order collection makes the run return
false immediately: the only recorded invocation is the fetch, so the
report resource is never created and no persistence update occurs. -/
theorem c6_empty_orders_no_effects (env : Env) (user_id : Int)
    (h : env.get_orders_by_user user_id = Except.ok []) :
    process_orders env user_id = (false, [Event.fetch user_id])
    ∧ ∀ ev ∈ (process_orders env user_id).2,
        (∀ f rows, ev ≠ Event.fileWrite f rows)
        ∧ (∀ i s p, ev ≠ Event.dbUpdate i s p) := by
  have heq : process_orders env user_id = (false, [Event.fetch user_id]) := by
    unfold process_orders
    rw [h]
    rfl
  refine ⟨heq, ?_⟩
  rw [heq]
  intro ev hev
  simp only [List.mem_singleton] at hev
  subst hev
  exact ⟨fun f rows => by simp, fun i s p => by simp⟩

/-- An environment whose fetch returns no orders. -/
def envEmpty : Env :=
  { envOk with get_orders_by_user := fun _ => Except.ok [] }

/-- Witness for C6: the empty batch returns false with only the fetch
recorded. -/
theorem c6_witness :
    process_orders envEmpty 3 = (false, [Event.fetch 3]) :=
  (c6_empty_orders_no_effects envEmpty 3 rfl).1

/-- Claim C8: an order whose type is none of "A", "B", "C" gets status
`unknown_type` from type dispatch, which invokes no collaborator; the
whole per-order pipeline then records exactly one invocation, the
persistence save (so neither the sink nor the remote client is ever
called for that order). -/
theorem c8_unknown_type_no_collaborator (env : Env) (f : String) (o : Order)
    (hA : o.type ≠ "A") (hB : o.type ≠ "B") (hC : o.type ≠ "C") :
    process_order_by_type env f o
      = ({ o with status := OrderStatus.UNKNOWN_TYPE }, [], none)
    ∧ (process_single_order env f o).2.1
        = [Event.dbUpdate o.id OrderStatus.UNKNOWN_TYPE
            (update_order_priority
              { o with status := OrderStatus.UNKNOWN_TYPE }).priority] := by
  have hd : process_order_by_type env f o
      = ({ o with status := OrderStatus.UNKNOWN_TYPE }, [], none) := by
    unfold process_order_by_type
    rw [if_neg hA, if_neg hB, if_neg hC]
  refine ⟨hd, ?_⟩
  rw [single_ok_eq env f o _ _ hd, save_events_eq, List.nil_append,
    update_priority_id_eq, update_priority_status_eq]

/-- Witness for C8: a type "D" order resolves to `unknown_type` with
one single recorded invocation, the persistence save. -/
theorem c8_witness :
    process_order_by_type envOk fileW (Order.init 7 "D" 10 false)
      = ({ Order.init 7 "D" 10 false with status := OrderStatus.UNKNOWN_TYPE },
         [], none)
    ∧ (process_single_order envOk fileW (Order.init 7 "D" 10 false)).2.1
        = [Event.dbUpdate 7 OrderStatus.UNKNOWN_TYPE
            (update_order_priority
              { Order.init 7 "D" 10 false with
                  status := OrderStatus.UNKNOWN_TYPE }).priority] :=
  c8_unknown_type_no_collaborator envOk fileW (Order.init 7 "D" 10 false)
    (by decide) (by decide) (by decide)

/-- Claim C9: the export of a type "A" order happens before the status
assignment and the priority update, so the data row appended for a
freshly constructed type "A" order always records status "new" and
priority "low" — even though the order then becomes `exported` and,
when the amount exceeds 200, its derived priority becomes `high`. -/
theorem c9_fresh_typeA_row_records_new_low (env : Env) (f : String)
    (i : Int) (a : Rat) (fl : Bool)
    (happend : env.append_file f (typeARows (Order.init i "A" a fl))
        = Except.ok ()) :
    csvRow (Order.init i "A" a fl)
      = [toString i, "A", toString a, (toString fl).toLower,
         OrderStatus.NEW, OrderPriority.LOW]
    ∧ (process_type_a_order env f (Order.init i "A" a fl)).2.1
        = [Event.fileAppend f (typeARows (Order.init i "A" a fl))]
    ∧ (process_type_a_order env f (Order.init i "A" a fl)).1.status
        = OrderStatus.EXPORTED
    ∧ (a > 200 →
        (update_order_priority
            (process_type_a_order env f (Order.init i "A" a fl)).1).priority
          = OrderPriority.HIGH) := by
  refine ⟨rfl, ?_, ?_, ?_⟩
  · rw [typeA_ok_eq env f (Order.init i "A" a fl) happend]
  · rw [typeA_ok_eq env f (Order.init i "A" a fl) happend]
  · intro h
    rw [typeA_ok_eq env f (Order.init i "A" a fl) happend]
    unfold update_order_priority
    rw [if_pos (show ({ Order.init i "A" a fl with
        status := OrderStatus.EXPORTED } : Order).amount > 200 from h)]

/-- Witness for C9: a fresh type "A" order of amount 250 writes a row
recording "new" and "low", then ends up `exported` with priority
`high`. -/
theorem c9_witness :
    csvRow (Order.init 1 "A" 250 true)
      = [toString (1 : Int), "A", toString (250 : Rat),
         (toString true).toLower, OrderStatus.NEW, OrderPriority.LOW]
    ∧ (process_type_a_order envOk fileW (Order.init 1 "A" 250 true)).1.status
        = OrderStatus.EXPORTED
    ∧ (update_order_priority
          (process_type_a_order envOk fileW (Order.init 1 "A" 250 true)).1).priority
        = OrderPriority.HIGH :=
  ⟨(c9_fresh_typeA_row_records_new_low envOk fileW 1 250 true rfl).1,
   (c9_fresh_typeA_row_records_new_low envOk fileW 1 250 true rfl).2.2.1,
   (c9_fresh_typeA_row_records_new_low envOk fileW 1 250 true rfl).2.2.2
     (by decide)⟩

theorem dispatch_exc_none (env : Env) (hc : ContainedEnv env) (f : String)
    (o : Order) : (process_order_by_type env f o).2.2 = none := by
  obtain ⟨hap, hcall, hupd⟩ := hc
  unfold process_order_by_type
  by_cases hA : o.type = "A"
  · rw [if_pos hA]
    rcases hap f (typeARows o) with h | h
    · rw [typeA_ok_eq env f o h]
    · rw [typeA_ioerr_eq env f o h]
  · rw [if_neg hA]
    by_cases hB : o.type = "B"
    · rw [if_pos hB]
      rcases hcall o.id with ⟨r, h⟩ | h
      · rw [typeB_ok_eq env o r h]
      · rw [typeB_apiexc_eq env o h]
    · rw [if_neg hB]
      by_cases hC : o.type = "C"
      · rw [if_pos hC]
      · rw [if_neg hC]

theorem save_exc_none (env : Env) (hc : ContainedEnv env) (p : Order) :
    (save_order_status env p).2.2 = none := by
  obtain ⟨-, -, hupd⟩ := hc
  rcases hupd p.id p.status p.priority with ⟨b, h⟩ | h
  · rw [save_ok_eq env p b h]
  · rw [save_dbexc_eq env p h]

theorem single_exc_none (env : Env) (hc : ContainedEnv env) (f : String)
    (o : Order) : (process_single_order env f o).2.2 = none := by
  have hd := dispatch_exc_none env hc f o
  have heq : process_order_by_type env f o
      = ((process_order_by_type env f o).1,
         (process_order_by_type env f o).2.1, none) := by
    rw [← hd]
  rw [single_ok_eq env f o _ _ heq]
  exact save_exc_none env hc _

theorem loop_exc_none (env : Env) (hc : ContainedEnv env) (f : String) :
    ∀ orders : List Order, (process_order_loop env f orders).2.2 = none := by
  intro orders
  induction orders with
  | nil => rfl
  | cons o rest ih =>
      have hs := single_exc_none env hc f o
      have heq : process_single_order env f o
          = ((process_single_order env f o).1,
             (process_single_order env f o).2.1, none) := by
        rw [← hs]
      rw [loop_cons_ok_eq env f o _ _ rest heq]
      exact ih

/-- Claim C2: whenever every per-order collaborator failure is of a
contained kind, the run returns true as soon as the fetch yields a
non-empty list and the report header write succeeds — no matter how
many orders fail internally; and the run returns false whenever an
uncontained failure is raised during the batch: a fetch failure, a
report-creation failure, or an exception escaping an order's
pipeline. -/
theorem c2_batch_boolean_result (env : Env) (user_id : Int) :
    (∀ o os, ContainedEnv env →
        env.get_orders_by_user user_id = Except.ok (o :: os) →
        env.write_file (csvFileName user_id env.now) [headerRow]
          = Except.ok () →
        (process_orders env user_id).1 = true)
    ∧ (∀ e, env.get_orders_by_user user_id = Except.error e →
        (process_orders env user_id).1 = false)
    ∧ (∀ o os e, env.get_orders_by_user user_id = Except.ok (o :: os) →
        env.write_file (csvFileName user_id env.now) [headerRow]
          = Except.error e →
        (process_orders env user_id).1 = false)
    ∧ (∀ o os e, env.get_orders_by_user user_id = Except.ok (o :: os) →
        env.write_file (csvFileName user_id env.now) [headerRow]
          = Except.ok () →
        (process_order_loop env (csvFileName user_id env.now) (o :: os)).2.2
          = some e →
        (process_orders env user_id).1 = false) := by
  refine ⟨?_, ?_, ?_, ?_⟩
  · intro o os hc hfetch hw
    have hcsv := create_csv_file_ok_eq env user_id hw
    have hl := loop_exc_none env hc (csvFileName user_id env.now) (o :: os)
    have hloop : process_order_loop env (csvFileName user_id env.now) (o :: os)
        = ((process_order_loop env (csvFileName user_id env.now) (o :: os)).1,
           (process_order_loop env (csvFileName user_id env.now) (o :: os)).2.1,
           none) := by
      rw [← hl]
    rw [process_orders_run_eq env user_id (o :: os)
      (csvFileName user_id env.now) _ _ _ none (List.cons_ne_nil o os)
      hfetch hcsv hloop]
    rfl
  · intro e hfetch
    unfold process_orders
    rw [hfetch]
  · intro o os e hfetch hw
    rw [process_orders_csv_err_eq env user_id (o :: os) e _
      (List.cons_ne_nil o os) hfetch (create_csv_file_err_eq env user_id e hw)]
  · intro o os e hfetch hw hl
    have hloop : process_order_loop env (csvFileName user_id env.now) (o :: os)
        = ((process_order_loop env (csvFileName user_id env.now) (o :: os)).1,
           (process_order_loop env (csvFileName user_id env.now) (o :: os)).2.1,
           some e) := by
      rw [← hl]
    rw [process_orders_run_eq env user_id (o :: os)
      (csvFileName user_id env.now) _ _ _ (some e) (List.cons_ne_nil o os)
      hfetch (create_csv_file_ok_eq env user_id hw) hloop]
    rfl

/-- An environment whose API call always throws the contained
`APIException`, while fetch, file writes and persistence succeed: the
single type-B order fails internally, the batch does not. -/
def envContained : Env :=
  { now := 3,
    get_orders_by_user := fun _ => Except.ok [Order.init 2 "B" 80 false],
    update_order_status := fun _ _ _ => Except.ok true,
    call_api := fun _ => Except.error Exc.apiException,
    write_file := fun _ _ => Except.ok (),
    append_file := fun _ _ => Except.ok () }

/-- An environment like `envContained` but whose header write fails. -/
def envWriteFail : Env :=
  { envContained with write_file := fun _ _ => Except.error Exc.ioError }

/-- An environment like `envContained` but whose API call throws an
exception class no per-order handler catches. -/
def envUncontained : Env :=
  { envContained with call_api := fun _ => Except.error (Exc.other 1) }

/-- Witness for C2: the batch returns true although its only order's
remote call throws (contained), false when report creation fails, and
false when the order's remote call throws an uncontained exception. -/
theorem c2_witness :
    (process_orders envContained 3).1 = true
    ∧ (process_orders envWriteFail 3).1 = false
    ∧ (process_orders envUncontained 3).1 = false :=
  ⟨(c2_batch_boolean_result envContained 3).1
      (Order.init 2 "B" 80 false) []
      ⟨fun _ _ => Or.inl rfl,
       fun _ => Or.inr rfl,
       fun _ _ _ => Or.inl ⟨true, rfl⟩⟩ rfl rfl,
   (c2_batch_boolean_result envWriteFail 3).2.2.1
      (Order.init 2 "B" 80 false) [] Exc.ioError rfl rfl,
   (c2_batch_boolean_result envUncontained 3).2.2.2
      (Order.init 2 "B" 80 false) [] (Exc.other 1) rfl rfl rfl⟩

/-- Claim C10: failure containment covers only the three declared
exception kinds.  An exception of any other class escapes the handler
of each of the three collaborator-calling steps with the order's
status untouched — at the step level and through the whole per-order
pipeline — and during a batch, wherever in the list the raising order
sits and whichever of its steps raised, the run returns false and the
trace ends at the raising order: nothing is recorded for the remaining
orders, so they are neither processed nor persisted. -/
theorem c10_uncontained_exception_propagates (env : Env) (f : String)
    (o : Order) (user_id : Int) (n : Nat) :
    (env.append_file f (typeARows o) = Except.error (Exc.other n) →
        process_type_a_order env f o
          = (o, [Event.fileAppend f (typeARows o)], some (Exc.other n)))
    ∧ (env.call_api o.id = Except.error (Exc.other n) →
        process_type_b_order env o
          = (o, [Event.apiCall o.id], some (Exc.other n)))
    ∧ (env.update_order_status o.id o.status o.priority
          = Except.error (Exc.other n) →
        save_order_status env o
          = (o, [Event.dbUpdate o.id o.status o.priority],
             some (Exc.other n)))
    ∧ (o.type = "A" →
        env.append_file f (typeARows o) = Except.error (Exc.other n) →
        process_single_order env f o
          = (o, [Event.fileAppend f (typeARows o)], some (Exc.other n)))
    ∧ (o.type = "B" →
        env.call_api o.id = Except.error (Exc.other n) →
        process_single_order env f o
          = (o, [Event.apiCall o.id], some (Exc.other n)))
    ∧ (∀ o1 evs1, process_order_by_type env f o = (o1, evs1, none) →
        env.update_order_status (update_order_priority o1).id
            (update_order_priority o1).status
            (update_order_priority o1).priority
          = Except.error (Exc.other n) →
        process_single_order env f o
          = (update_order_priority o1,
             evs1 ++ [Event.dbUpdate (update_order_priority o1).id
               (update_order_priority o1).status
               (update_order_priority o1).priority],
             some (Exc.other n)))
    ∧ (∀ pre rest o1 evs1 e,
        env.get_orders_by_user user_id = Except.ok (pre ++ o :: rest) →
        env.write_file (csvFileName user_id env.now) [headerRow]
          = Except.ok () →
        (∀ p ∈ pre,
          (process_single_order env (csvFileName user_id env.now) p).2.2
            = none) →
        process_single_order env (csvFileName user_id env.now) o
          = (o1, evs1, some e) →
        process_orders env user_id
          = (false,
             Event.fetch user_id
               :: Event.fileWrite (csvFileName user_id env.now) [headerRow]
               :: (batchEvents env (csvFileName user_id env.now) pre
                  ++ evs1))) := by
  refine ⟨typeA_other_eq env f o n, typeB_other_eq env o n,
    save_other_eq env o n, ?_, ?_, ?_, ?_⟩
  · intro htype happ
    have hd : process_order_by_type env f o
        = (o, [Event.fileAppend f (typeARows o)], some (Exc.other n)) := by
      unfold process_order_by_type
      rw [if_pos htype]
      exact typeA_other_eq env f o n happ
    exact single_exc_eq env f o o _ _ hd
  · intro htype hcall
    have hd : process_order_by_type env f o
        = (o, [Event.apiCall o.id], some (Exc.other n)) := by
      unfold process_order_by_type
      rw [htype]
      rw [if_neg (by decide : ("B" : String) ≠ "A")]
      rw [if_pos (rfl : ("B" : String) = "B")]
      exact typeB_other_eq env o n hcall
    exact single_exc_eq env f o o _ _ hd
  · intro o1 evs1 hd hupd
    rw [single_ok_eq env f o o1 evs1 hd,
      save_other_eq env (update_order_priority o1) n hupd]
  · intro pre rest o1 evs1 e hfetch hw hpre hsingle
    have hloop := loop_prefix_exc_eq env (csvFileName user_id env.now)
      o o1 evs1 e hsingle pre rest hpre
    rw [process_orders_run_eq env user_id (pre ++ o :: rest)
      (csvFileName user_id env.now) _ _ _ (some e) (by simp) hfetch
      (create_csv_file_ok_eq env user_id hw) hloop]
    rfl

/-- An environment whose sink append throws an exception class that no
per-order handler catches; the fetch puts a well-behaved type-C order
in front of the raising type-A order and a type-B order behind it. -/
def envSinkOther : Env :=
  { now := 7,
    get_orders_by_user := fun _ =>
      Except.ok [Order.init 3 "C" 10 true, Order.init 8 "A" 20 false,
        Order.init 2 "B" 80 false],
    update_order_status := fun _ _ _ => Except.ok true,
    call_api := fun _ => Except.ok { status := APIStatus.SUCCESS, data := 60 },
    write_file := fun _ _ => Except.ok (),
    append_file := fun _ _ => Except.error (Exc.other 0) }

/-- Witness for C10: an undeclared sink exception on the second order
(type "A") makes the run false; the trace covers the first order and
the failing append only, so the third order is never processed and the
raising order is never persisted. -/
theorem c10_witness :
    process_orders envSinkOther 5
      = (false,
         Event.fetch 5
           :: Event.fileWrite (csvFileName 5 envSinkOther.now) [headerRow]
           :: (batchEvents envSinkOther (csvFileName 5 envSinkOther.now)
                [Order.init 3 "C" 10 true]
              ++ [Event.fileAppend (csvFileName 5 envSinkOther.now)
                   (typeARows (Order.init 8 "A" 20 false))])) :=
  (c10_uncontained_exception_propagates envSinkOther
      (csvFileName 5 envSinkOther.now) (Order.init 8 "A" 20 false) 5
      0).2.2.2.2.2.2
    [Order.init 3 "C" 10 true] [Order.init 2 "B" 80 false]
    (Order.init 8 "A" 20 false)
    [Event.fileAppend (csvFileName 5 envSinkOther.now)
      (typeARows (Order.init 8 "A" 20 false))]
    (Exc.other 0) rfl rfl (by decide) rfl

end Exam
